import Mathlib

/- Formal model of the analytics pipeline of app.py: trading-day adjustment
   and interval selection, raw-table normalization, rolling statistics,
   sector performance metrics, correlation-matrix construction, and the
   per-symbol dashboard loop. -/

namespace TradingDesk

/-- Days counted from 1970-01-01 (a Thursday); weekday follows Python
date.weekday with Monday = 0 .. Sunday = 6. -/
def weekday (d : Int) : Int := (d + 3) % 7

/-- Embedding of adjust_to_trading_day (app.py lines 42-49): Saturday moves
back one day, Sunday two days, Monday-Friday unchanged. -/
def adjust_to_trading_day (d : Int) : Int :=
  if weekday d = 5 then d - 1
  else if weekday d = 6 then d - 2
  else d

/-- Sampling interval strings used by update_dashboard and fetch_stock_data:
1-minute, 15-minute and daily bars. -/
inductive Interval
  | m1
  | m15
  | d1
  deriving DecidableEq

/-- days_diff of update_dashboard (app.py line 588): difference in days of the
two weekend-adjusted dates. -/
def daysDiff (startDate endDate : Int) : Int :=
  adjust_to_trading_day endDate - adjust_to_trading_day startDate

/-- Interval choice of update_dashboard (app.py line 591):
15m when days_diff >= 5, otherwise 1m. -/
def chooseInterval (dd : Int) : Interval :=
  if dd ≥ 5 then Interval.m15 else Interval.m1

/-- C4: each requested date is rolled back to a trading day (Saturday minus
one day, Sunday minus two, weekdays unchanged), the adjustment is idempotent,
days_diff is taken between the adjusted dates, 1-minute sampling is selected
exactly when days_diff < 5 and 15-minute sampling exactly when days_diff >= 5,
and a Saturday start = end adjusts both to the preceding Friday, giving
days_diff 0 and the intraday (1-minute) choice. -/
theorem c4_interval_selection (s e d : Int) :
    (weekday d = 5 → adjust_to_trading_day d = d - 1) ∧
    (weekday d = 6 → adjust_to_trading_day d = d - 2) ∧
    (weekday d < 5 → adjust_to_trading_day d = d) ∧
    adjust_to_trading_day (adjust_to_trading_day d) = adjust_to_trading_day d ∧
    (chooseInterval (daysDiff s e) = Interval.m1 ↔ daysDiff s e < 5) ∧
    (chooseInterval (daysDiff s e) = Interval.m15 ↔ 5 ≤ daysDiff s e) ∧
    (weekday d = 5 →
      adjust_to_trading_day d = d - 1 ∧ weekday (d - 1) = 4 ∧
      daysDiff d d = 0 ∧ chooseInterval (daysDiff d d) = Interval.m1) := by
  have hwb : 0 ≤ (d + 3) % 7 ∧ (d + 3) % 7 < 7 := ⟨Int.emod_nonneg _ (by norm_num), Int.emod_lt_of_pos _ (by norm_num)⟩
  refine ⟨?_, ?_, ?_, ?_, ?_, ?_, ?_⟩
  · intro h; simp [adjust_to_trading_day, h]
  · intro h; simp [adjust_to_trading_day, h]
  · intro h
    simp only [adjust_to_trading_day, weekday] at *
    rw [if_neg (by omega), if_neg (by omega)]
  · simp only [adjust_to_trading_day, weekday]
    split_ifs <;> omega
  · simp only [chooseInterval]
    split_ifs with h
    · constructor
      · intro hc; exact absurd hc (by simp)
      · omega
    · constructor
      · intro _; omega
      · intro _; rfl
  · simp only [chooseInterval]
    split_ifs with h
    · constructor
      · intro _; exact h
      · intro _; rfl
    · constructor
      · intro hc; exact absurd hc (by simp)
      · intro hc; exact absurd hc h
  · intro h
    refine ⟨by simp [adjust_to_trading_day, h], ?_, ?_, ?_⟩
    · simp only [weekday] at *; omega
    · simp [daysDiff]
    · simp [daysDiff, chooseInterval]

/-- Witness for C4 at day 2 = 1970-01-03, a Saturday. -/
theorem c4_interval_selection_witness :
    adjust_to_trading_day 2 = 2 - 1 ∧ weekday (2 - 1) = 4 ∧
    daysDiff 2 2 = 0 ∧ chooseInterval (daysDiff 2 2) = Interval.m1 :=
  (c4_interval_selection 2 2 2).2.2.2.2.2.2 (by decide)

/-- Embedding of pandas Series.rolling(window, min_periods = 1).mean() as used
by add_moving_average (app.py line 80): entry i averages the observations at
positions max(0, i+1-window) .. i. Natural-number subtraction already
truncates at zero. -/
def rollingMean (xs : List Rat) (window : Nat) : List Rat :=
  (List.range xs.length).map (fun i =>
    let win := (xs.take (i + 1)).drop (i + 1 - window)
    win.sum / (win.length : Rat))

/-- Length of the window slice used by rollingMean. -/
theorem rollingMean_win_length (xs : List Rat) (window i : Nat) (hi : i < xs.length) :
    ((xs.take (i + 1)).drop (i + 1 - window)).length = min (i + 1) window := by
  rw [List.length_drop, List.length_take]
  omega

/-- rollingMean preserves the length of its input. -/
theorem rollingMean_length (xs : List Rat) (window : Nat) :
    (rollingMean xs window).length = xs.length := by
  simp [rollingMean]

/-- Timezone state of a timestamp column: naive (no zone attached), UTC, or
US/Eastern. Timestamp values themselves are stored as absolute instants, so
tz_localize and tz_convert change only this tag. -/
inductive TZ
  | naive
  | utc
  | eastern
  deriving DecidableEq

/-- A raw provider table as returned by the fetch collaborator, before the
post-processing in fetch_stock_data: a named timestamp index, its timezone
state, and possibly multi-level column labels. -/
structure RawFrame where
  indexLabel : String
  dates : List Int
  tz : TZ
  columns : List (List String × List Rat)
  deriving DecidableEq

/-- A processed table: timestamp column name, timestamps, timezone state,
and single-level named numeric columns. -/
structure PFrame where
  dateLabel : String
  dates : List Int
  tz : TZ
  cols : List (String × List Rat)
  deriving DecidableEq

/-- Embedding of columns.get_level_values(0) (app.py line 66): keep the first
level of each column label. -/
def flattenCols (cs : List (List String × List Rat)) : List (String × List Rat) :=
  cs.map (fun c => (c.1.headD "", c.2))

/-- Column lookup, the embedding of df[name] on columns; none models a raised
KeyError. -/
def findCol (cols : List (String × List Rat)) (c : String) : Option (List Rat) :=
  match cols with
  | [] => none
  | (n, v) :: rest => if n = c then some v else findCol rest c

/-- Column assignment df[name] = v: replace the column when the name exists,
otherwise append it at the end. -/
def setCol (cols : List (String × List Rat)) (c : String) (v : List Rat) :
    List (String × List Rat) :=
  match cols with
  | [] => [(c, v)]
  | (n, w) :: rest => if n = c then (c, v) :: rest else (n, w) :: setCol rest c v

/-- Embedding of Series.dt.tz_localize applied to a naive column with zone
UTC: the numbers are reinterpreted as UTC instants, values unchanged. -/
def tzLocalizeUTC (p : List Int × TZ) : List Int × TZ := (p.1, TZ.utc)

/-- Embedding of Series.dt.tz_convert(eastern): the absolute instants are
unchanged, only the attached zone becomes US/Eastern. -/
def tzConvertEastern (p : List Int × TZ) : List Int × TZ := (p.1, TZ.eastern)

/-- Embedding of the post-download normalization in fetch_stock_data
(app.py lines 63-77). An empty table is returned as is (only its emptiness is
ever inspected by the caller). Otherwise: reset_index exposes the timestamp
index under its label, multi-level column labels are flattened to their first
level, a Datetime label is renamed to Date, and the access data["Date"]
raises a KeyError (modelled as an error value) when no Date column results.
For the 1-minute interval a naive timestamp column is localized to UTC and
then converted to US/Eastern; other intervals leave timestamps untouched.
Note the code performs no check of the OHLCV data columns here. -/
def normalizeFrameE (interval : Interval) (r : RawFrame) : Except String PFrame :=
  if r.dates.isEmpty then
    Except.ok ⟨r.indexLabel, r.dates, r.tz, flattenCols r.columns⟩
  else
    let label := if r.indexLabel = "Datetime" then "Date" else r.indexLabel
    if label = "Date" then
      if interval = Interval.m1 then
        let p0 := if r.tz = TZ.naive then tzLocalizeUTC (r.dates, r.tz) else (r.dates, r.tz)
        let p1 := tzConvertEastern p0
        Except.ok ⟨label, p1.1, p1.2, flattenCols r.columns⟩
      else
        Except.ok ⟨label, r.dates, r.tz, flattenCols r.columns⟩
    else
      Except.error "KeyError"

/-- Embedding of add_moving_average (app.py lines 79-81): read the Close
column (KeyError when absent), and store its rolling mean under the column
name made of the given name stem and the window size. -/
def add_moving_average (df : PFrame) (window : Nat) (stem : String) :
    Except String PFrame :=
  match findCol df.cols "Close" with
  | none => Except.error "KeyError"
  | some closes =>
      Except.ok { df with
        cols := setCol df.cols (stem ++ "_" ++ toString window) (rollingMean closes window) }

/-- Looking up the assigned column returns the assigned values. -/
theorem findCol_setCol_same (cols : List (String × List Rat)) (c : String) (v : List Rat) :
    findCol (setCol cols c v) c = some v := by
  induction cols with
  | nil => simp [setCol, findCol]
  | cons p rest ih =>
    by_cases h : p.1 = c
    · simp [setCol, findCol, h]
    · simp [setCol, findCol, h, ih]

/-- Looking up any other column is unaffected by an assignment. -/
theorem findCol_setCol_other (cols : List (String × List Rat)) (c c' : String) (v : List Rat)
    (h : c' ≠ c) : findCol (setCol cols c v) c' = findCol cols c' := by
  induction cols with
  | nil =>
    simp only [setCol, findCol]
    rw [if_neg (fun hh => h hh.symm)]
  | cons p rest ih =>
    by_cases hp : p.1 = c
    · simp only [setCol, hp, if_pos rfl, findCol]
      rw [if_neg (fun hh => h hh.symm), if_neg (fun hh => h hh.symm)]
    · simp only [setCol, hp, if_neg hp, findCol]
      by_cases hc : p.1 = c'
      · simp [hc]
      · simp [hc, ih]

/-- C5: for every positive window, the moving-average column produced by
add_moving_average has the length of the Close series, its entry at position
i is the arithmetic mean of the last min(i+1, window) close prices ending at
position i (min_periods = 1 semantics), and its first entry equals the first
close price. -/
theorem c5_moving_average (df df' : PFrame) (window : Nat) (stem : String)
    (closes : List Rat) (hw : 0 < window) (hc : findCol df.cols "Close" = some closes)
    (h : add_moving_average df window stem = Except.ok df') :
    ∃ ma, findCol df'.cols (stem ++ "_" ++ toString window) = some ma ∧
      ma.length = closes.length ∧
      (∀ i, i < closes.length →
        ma[i]? = some (((closes.take (i + 1)).drop (i + 1 - min (i + 1) window)).sum /
          ((min (i + 1) window : Nat) : Rat))) ∧
      (∀ c0, closes[0]? = some c0 → ma[0]? = some c0) := by
  simp only [add_moving_average, hc] at h
  have hdf : df'.cols = setCol df.cols (stem ++ "_" ++ toString window)
      (rollingMean closes window) := by
    cases h
    rfl
  refine ⟨rollingMean closes window, ?_, rollingMean_length closes window, ?_, ?_⟩
  · rw [hdf]; exact findCol_setCol_same ..
  · intro i hi
    have hmem : (List.range closes.length)[i]? = some i := by
      simp [List.getElem?_range, hi]
    simp only [rollingMean, List.getElem?_map, hmem, Option.map_some']
    have harg : i + 1 - window = i + 1 - min (i + 1) window := by omega
    rw [rollingMean_win_length closes window i hi, harg]
  · intro c0 hc0
    have h0 : 0 < closes.length := by
      cases closes with
      | nil => simp at hc0
      | cons a l => simp
    have hmem : (List.range closes.length)[0]? = some 0 := by
      simp [List.getElem?_range, h0]
    simp only [rollingMean, List.getElem?_map, hmem, Option.map_some']
    cases closes with
    | nil => simp at hc0
    | cons a l =>
      simp only [List.getElem?_cons_zero, Option.some_inj] at hc0
      have hone : 1 - window = 0 := by omega
      simp [hone, hc0]

/-- C9: adding a moving-average column leaves the source series intact: the
timestamp column, timezone state and every column other than the newly named
one are unchanged by add_moving_average. -/
theorem c9_series_not_mutated (df df' : PFrame) (window : Nat) (stem : String)
    (h : add_moving_average df window stem = Except.ok df') :
    df'.dateLabel = df.dateLabel ∧ df'.dates = df.dates ∧ df'.tz = df.tz ∧
    ∀ c, c ≠ stem ++ "_" ++ toString window → findCol df'.cols c = findCol df.cols c := by
  unfold add_moving_average at h
  cases hc : findCol df.cols "Close" with
  | none => rw [hc] at h; cases h
  | some closes =>
    rw [hc] at h
    cases h
    exact ⟨rfl, rfl, rfl, fun c hcne =>
      findCol_setCol_other df.cols (stem ++ "_" ++ toString window) c
        (rollingMean closes window) hcne⟩

/-- A concrete three-bar frame used by the witnesses. -/
def dfEx : PFrame :=
  ⟨"Date", [0, 1, 2], TZ.naive, [("Close", [4, 6, 8]), ("Volume", [1, 1, 1])]⟩

/-- The frame dfEx after add_moving_average with window 2 and stem Short_MA. -/
def dfEx' : PFrame :=
  ⟨"Date", [0, 1, 2], TZ.naive,
    [("Close", [4, 6, 8]), ("Volume", [1, 1, 1]), ("Short_MA_2", [4, 5, 7])]⟩

/-- Witness for C5 on dfEx with window 2. -/
theorem c5_moving_average_witness :
    ∃ ma, findCol dfEx'.cols ("Short_MA" ++ "_" ++ toString 2) = some ma ∧
      ma.length = ([4, 6, 8] : List Rat).length ∧
      (∀ i, i < ([4, 6, 8] : List Rat).length →
        ma[i]? = some (((([4, 6, 8] : List Rat).take (i + 1)).drop
          (i + 1 - min (i + 1) 2)).sum / ((min (i + 1) 2 : Nat) : Rat))) ∧
      (∀ c0, ([4, 6, 8] : List Rat)[0]? = some c0 → ma[0]? = some c0) :=
  c5_moving_average dfEx dfEx' 2 "Short_MA" [4, 6, 8] (by decide) (by decide)
    (by norm_num [add_moving_average, dfEx, dfEx', findCol, setCol, rollingMean, List.range_succ]; decide)

/-- Witness for C9 on dfEx with window 2. -/
theorem c9_series_not_mutated_witness :
    dfEx'.dateLabel = dfEx.dateLabel ∧ dfEx'.dates = dfEx.dates ∧ dfEx'.tz = dfEx.tz ∧
    ∀ c, c ≠ "Short_MA" ++ "_" ++ toString 2 →
      findCol dfEx'.cols c = findCol dfEx.cols c :=
  c9_series_not_mutated dfEx dfEx' 2 "Short_MA"
    (by norm_num [add_moving_average, dfEx, dfEx', findCol, setCol, rollingMean, List.range_succ]; decide)

/-- One daily observation of a history slice used by update_sector_analysis:
date together with low, high and close prices. -/
structure Bar where
  date : Int
  low : Rat
  high : Rat
  close : Rat
  deriving DecidableEq

/-- Python float division as an Option: a zero denominator produces an IEEE
non-finite value (inf or NaN) rather than a number, modelled as none. All
divisions in update_sector_analysis go through numpy scalars, so a zero
denominator never raises. -/
def fdiv (a b : Rat) : Option Rat := if b = 0 then none else some (a / b)

/-- The percentage-change formula (new - old) / old * 100 of
update_sector_analysis; none when the denominator is zero. -/
def pctChange (newv oldv : Rat) : Option Rat :=
  (fdiv (newv - oldv) oldv).map (fun q => q * 100)

/-- Daily performance (app.py lines 826-832): guarded so that a missing
regularMarketOpen, a missing regularMarketPreviousClose or a zero previous
close all yield 0.0. -/
def dailyPerf (current previousClose : Option Rat) : Option Rat :=
  match current, previousClose with
  | some c, some p => if p ≠ 0 then pctChange c p else some 0
  | _, _ => some 0

/-- Reference close for the weekly delta (app.py lines 844-849): the latest
close at or before last date minus 7 days, else the first close of the slice. -/
def weeklyRefClose (hist : List Bar) (lastBar : Bar) : Rat :=
  match (hist.filter (fun b => b.date ≤ lastBar.date - 7)).getLast? with
  | some r => r.close
  | none => (hist.headD lastBar).close

/-- Weekly performance (app.py lines 836-850): 0.0 on an empty slice,
otherwise the percentage change from the weekly reference close, with no
guard on that denominator. -/
def weeklyPerf (hist : List Bar) : Option Rat :=
  match hist.getLast? with
  | none => some 0
  | some lastBar => pctChange lastBar.close (weeklyRefClose hist lastBar)

/-- Reference close for the monthly delta (app.py lines 853-858): the latest
close at or before last date minus 30 days, else the first close. -/
def monthlyRefClose (hist : List Bar) (lastBar : Bar) : Rat :=
  match (hist.filter (fun b => b.date ≤ lastBar.date - 30)).getLast? with
  | some r => r.close
  | none => (hist.headD lastBar).close

/-- Monthly performance (app.py lines 836-859): 0.0 on an empty slice,
otherwise the percentage change from the monthly reference close, with no
guard on that denominator. -/
def monthlyPerf (hist : List Bar) : Option Rat :=
  match hist.getLast? with
  | none => some 0
  | some lastBar => pctChange lastBar.close (monthlyRefClose hist lastBar)

/-- Quarterly return (app.py lines 862-868): first-versus-last close of the
3-month slice, 0.0 when the slice is empty, no guard on the first close. -/
def quarterReturn (hist : List Bar) : Option Rat :=
  match hist.head?, hist.getLast? with
  | some firstBar, some lastBar => pctChange lastBar.close firstBar.close
  | _, _ => some 0

/-- Yearly return (app.py lines 888-898): first-versus-last close of the
1-year slice, 0.0 when the slice is empty, no guard on the first close. -/
def yearlyReturn (hist : List Bar) : Option Rat :=
  match hist.head?, hist.getLast? with
  | some firstBar, some lastBar => pctChange lastBar.close firstBar.close
  | _, _ => some 0

/-- Minimum of the Low column over a nonempty slice, seeded by the head. -/
def minLow (b : Bar) (rest : List Bar) : Rat :=
  rest.foldl (fun m x => min m x.low) b.low

/-- Maximum of the High column over a nonempty slice, seeded by the head. -/
def maxHigh (b : Bar) (rest : List Bar) : Rat :=
  rest.foldl (fun m x => max m x.high) b.high

/-- Range measure of update_sector_analysis (app.py lines 871-898):
(max High - min Low) / min Low * 100 on a nonempty slice, 0.0 on an empty
slice; only emptiness is guarded, not a zero minimum low. -/
def rangePct (hist : List Bar) : Option Rat :=
  match hist with
  | [] => some 0
  | b :: rest => pctChange (maxHigh b rest) (minLow b rest)

/-- Per-window close series kept for the correlation heat maps (app.py lines
900-912, 978, 1002): only the symbols whose series is non-empty enter the
data table passed to corr. -/
def includedSymbols (series : List (String × List Rat)) : List String :=
  (series.filter (fun p => !p.2.isEmpty)).map Prod.fst

/-- Dimension of the correlation matrix the code builds for a window: corr of
a table with n columns is an n-by-n matrix, and the table holds exactly the
non-empty series (an empty table yields an empty figure). -/
def corrMatrixDim (series : List (String × List Rat)) : Nat :=
  (includedSymbols series).length

/-- pctChange yields the formula value when the denominator is nonzero. -/
theorem pctChange_of_ne (c p : Rat) (hp : p ≠ 0) :
    pctChange c p = some ((c - p) / p * 100) := by
  simp [pctChange, fdiv, hp]

/-- pctChange with a zero denominator is an IEEE non-finite value. -/
theorem pctChange_of_zero (c : Rat) : pctChange c 0 = none := by
  simp [pctChange, fdiv]

/-- C2 counterexample: a one-bar month slice whose close is 0. The weekly
reference close falls back to the first close, 0, and the unguarded division
(current - 0) / 0 yields NaN (modelled none), not 0.0, contradicting the
claim that a zero denominator always gives exactly 0.0 and never NaN. -/
theorem c2_counterexample :
    weeklyPerf [⟨0, 0, 0, 0⟩] = none ∧ weeklyPerf [⟨0, 0, 0, 0⟩] ≠ some 0 := by
  have h : weeklyPerf [⟨0, 0, 0, 0⟩] = none := by
    norm_num [weeklyPerf, weeklyRefClose, pctChange, fdiv]
  exact ⟨h, by rw [h]; exact fun hc => Option.noConfusion hc⟩

/-- C2 amended: each delta equals (new - old) / old * 100 and an empty slice
yields exactly 0.0; a zero denominator yields 0.0 for the daily delta only
(its guard includes the previous close), while the weekly, monthly, quarterly
and yearly deltas are unguarded there and produce an IEEE non-finite value
(none), not 0.0. -/
theorem c2_amended :
    (∀ c p, dailyPerf c p ≠ none) ∧
    (∀ c p, p ≠ 0 → dailyPerf (some c) (some p) = some ((c - p) / p * 100)) ∧
    (∀ c, dailyPerf (some c) (some 0) = some 0) ∧
    (∀ c, dailyPerf c none = some 0) ∧
    (∀ p, dailyPerf none p = some 0) ∧
    weeklyPerf [] = some 0 ∧ monthlyPerf [] = some 0 ∧
    quarterReturn [] = some 0 ∧ yearlyReturn [] = some 0 ∧
    (∀ hist lastBar, hist.getLast? = some lastBar →
      (weeklyRefClose hist lastBar ≠ 0 →
        weeklyPerf hist = some ((lastBar.close - weeklyRefClose hist lastBar) /
          weeklyRefClose hist lastBar * 100)) ∧
      (weeklyRefClose hist lastBar = 0 → weeklyPerf hist = none)) ∧
    (∀ hist lastBar, hist.getLast? = some lastBar →
      (monthlyRefClose hist lastBar ≠ 0 →
        monthlyPerf hist = some ((lastBar.close - monthlyRefClose hist lastBar) /
          monthlyRefClose hist lastBar * 100)) ∧
      (monthlyRefClose hist lastBar = 0 → monthlyPerf hist = none)) ∧
    (∀ hist firstBar lastBar, hist.head? = some firstBar → hist.getLast? = some lastBar →
      (firstBar.close ≠ 0 →
        quarterReturn hist = some ((lastBar.close - firstBar.close) /
          firstBar.close * 100)) ∧
      (firstBar.close = 0 → quarterReturn hist = none)) ∧
    (∀ hist firstBar lastBar, hist.head? = some firstBar → hist.getLast? = some lastBar →
      (firstBar.close ≠ 0 →
        yearlyReturn hist = some ((lastBar.close - firstBar.close) /
          firstBar.close * 100)) ∧
      (firstBar.close = 0 → yearlyReturn hist = none)) := by
  refine ⟨?_, ?_, ?_, ?_, ?_, rfl, rfl, rfl, rfl, ?_, ?_, ?_, ?_⟩
  · intro c p
    cases c with
    | none => simp [dailyPerf]
    | some c =>
      cases p with
      | none => simp [dailyPerf]
      | some p =>
        by_cases hp : p = 0
        · simp [dailyPerf, hp]
        · simp [dailyPerf, hp, pctChange_of_ne c p hp]
  · intro c p hp
    simp [dailyPerf, hp, pctChange_of_ne c p hp]
  · intro c; simp [dailyPerf]
  · intro c; cases c <;> simp [dailyPerf]
  · intro p; simp [dailyPerf]
  · intro hist lastBar hl
    refine ⟨fun hne => ?_, fun hz => ?_⟩
    · simp [weeklyPerf, hl, pctChange_of_ne _ _ hne]
    · simp [weeklyPerf, hl, hz, pctChange_of_zero]
  · intro hist lastBar hl
    refine ⟨fun hne => ?_, fun hz => ?_⟩
    · simp [monthlyPerf, hl, pctChange_of_ne _ _ hne]
    · simp [monthlyPerf, hl, hz, pctChange_of_zero]
  · intro hist firstBar lastBar hh hl
    refine ⟨fun hne => ?_, fun hz => ?_⟩
    · simp [quarterReturn, hh, hl, pctChange_of_ne _ _ hne]
    · simp [quarterReturn, hh, hl, hz, pctChange_of_zero]
  · intro hist firstBar lastBar hh hl
    refine ⟨fun hne => ?_, fun hz => ?_⟩
    · simp [yearlyReturn, hh, hl, pctChange_of_ne _ _ hne]
    · simp [yearlyReturn, hh, hl, hz, pctChange_of_zero]

/-- A two-bar month slice used by the C2 witness: closes 10 then 11, seven
trading days apart. -/
def hist1 : List Bar := [⟨0, 1, 2, 10⟩, ⟨10, 1, 2, 11⟩]

/-- Witness for C2 amended on hist1 and on concrete daily inputs. -/
theorem c2_amended_witness :
    dailyPerf (some 5) (some 4) = some 25 ∧ weeklyPerf ([] : List Bar) = some 0 ∧
    weeklyPerf hist1 = some 10 ∧ quarterReturn hist1 = some 10 := by
  obtain ⟨h1, h2, h3, h4, h5, h6, h7, h8, h9, hw, hm, hq, hy⟩ := c2_amended
  refine ⟨?_, h6, ?_, ?_⟩
  · rw [h2 5 4 (by norm_num)]; norm_num
  · rw [(hw hist1 ⟨10, 1, 2, 11⟩ (by decide)).1 (by decide)]
    have hrc : weeklyRefClose hist1 ⟨10, 1, 2, 11⟩ = 10 := by decide
    rw [hrc]; norm_num
  · rw [(hq hist1 ⟨0, 1, 2, 10⟩ ⟨10, 1, 2, 11⟩ (by decide) (by decide)).1 (by decide)]
    norm_num

/-- C6 counterexample: a nonempty week slice whose minimum low is 0. The code
divides (max high - min low) by 0, an unguarded division producing an IEEE
non-finite value (none), contradicting the claim that the computation never
divides by zero. -/
theorem c6_counterexample : rangePct [⟨0, 0, 2, 1⟩] = none := by
  norm_num [rangePct, minLow, maxHigh, pctChange, fdiv]

/-- C6 amended: the range measure is exactly 0.0 on an empty slice and equals
(max High - min Low) / min Low * 100 on a nonempty slice whose minimum low is
nonzero; a zero minimum low is not guarded and divides by zero, producing an
IEEE non-finite value (none). No exception is raised in either case. -/
theorem c6_amended (b : Bar) (rest : List Bar) :
    rangePct ([] : List Bar) = some 0 ∧
    (minLow b rest ≠ 0 →
      rangePct (b :: rest) = some ((maxHigh b rest - minLow b rest) /
        minLow b rest * 100)) ∧
    (minLow b rest = 0 → rangePct (b :: rest) = none) := by
  refine ⟨rfl, fun hne => ?_, fun hz => ?_⟩
  · simp [rangePct, pctChange_of_ne _ _ hne]
  · simp [rangePct, hz, pctChange_of_zero]

/-- Witness for C6 amended on a one-bar slice with low 1 and high 3. -/
theorem c6_amended_witness :
    rangePct ([] : List Bar) = some 0 ∧
    rangePct [⟨0, 1, 3, 2⟩] = some ((maxHigh ⟨0, 1, 3, 2⟩ [] - minLow ⟨0, 1, 3, 2⟩ []) /
      minLow ⟨0, 1, 3, 2⟩ [] * 100) :=
  ⟨(c6_amended ⟨0, 1, 3, 2⟩ []).1, (c6_amended ⟨0, 1, 3, 2⟩ []).2.1 (by decide)⟩

/-- C3 counterexample: two symbols, one with a non-empty series and one with
an empty series. Only one symbol has data, so the claim requires an empty
matrix, but the code keeps the non-empty column and corr yields a 1-by-1
matrix. -/
theorem c3_counterexample :
    includedSymbols [("AAA", [1, 2]), ("BBB", [])] = ["AAA"] ∧
    corrMatrixDim [("AAA", [1, 2]), ("BBB", [])] = 1 ∧
    corrMatrixDim [("AAA", [1, 2]), ("BBB", [])] ≠ 0 := by
  refine ⟨by decide, by decide, by decide⟩

/-- C3 amended: a symbol enters a window's correlation matrix exactly when
its close series in that window is non-empty (empty-history symbols are
excluded, not zero-filled), and the matrix is empty exactly when no symbol
has data; with exactly one non-empty symbol the matrix is 1-by-1, not
empty. -/
theorem c3_amended (series : List (String × List Rat)) :
    (∀ s, s ∈ includedSymbols series ↔ ∃ xs, (s, xs) ∈ series ∧ xs ≠ []) ∧
    (corrMatrixDim series = 0 ↔ ∀ p ∈ series, p.2 = []) := by
  constructor
  · intro s
    simp only [includedSymbols, List.mem_map, List.mem_filter]
    constructor
    · rintro ⟨⟨a, b⟩, ⟨hmem, hb⟩, rfl⟩
      refine ⟨b, hmem, ?_⟩
      simpa using hb
    · rintro ⟨xs, hmem, hne⟩
      refine ⟨(s, xs), ⟨hmem, ?_⟩, rfl⟩
      simpa using hne
  · simp only [corrMatrixDim, includedSymbols, List.length_map,
      List.length_eq_zero, List.filter_eq_nil_iff]
    constructor
    · intro h p hp
      have := h p hp
      simpa using this
    · intro h p hp
      simpa using h p hp

/-- Witness for C3 amended: the symbol with the empty series is excluded. -/
theorem c3_amended_witness :
    "BBB" ∉ includedSymbols [("AAA", [1, 2]), ("BBB", [])] := by
  rw [(c3_amended [("AAA", [1, 2]), ("BBB", [])]).1 "BBB"]
  rintro ⟨xs, hx, hne⟩
  simp only [List.mem_cons, List.mem_singleton, List.not_mem_nil, or_false] at hx
  rcases hx with hx | hx
  · have h1 : "BBB" = "AAA" := congrArg Prod.fst hx
    exact absurd h1 (by decide)
  · have h2 : xs = [] := congrArg Prod.snd hx
    exact hne h2

/-- Entries appended to the stock-info pane by update_dashboard: a filled
info card for an analyzed symbol, or the error div built by the per-symbol
except handler (app.py lines 772-778). -/
inductive InfoEntry
  | card (ticker : String)
  | errorDiv (ticker : String) (msg : String)
  deriving DecidableEq

/-- Outcomes of the two external calls made for one ticker inside the loop
of update_dashboard: the yf.download raw table and the yf.Ticker(...).info
profile fetch. An error value models a raised provider exception. -/
structure TickerEnv where
  fetchRes : Except String RawFrame
  infoRes : Except String Unit

/-- Data columns the loop body reads from the frame: Open, High, Low for the
candlestick chart only; Close (moving averages, current price, charts) and
Volume always. -/
def requiredCols (candle : Bool) : List String :=
  if candle then ["Open", "High", "Low", "Close", "Volume"]
  else ["Close", "Volume"]

/-- Whether every listed column is present in the frame. -/
def colsPresent (df : PFrame) (cs : List String) : Bool :=
  cs.all (fun c => (findCol df.cols c).isSome)

/-- One iteration of the try/except body of update_dashboard (app.py lines
599-778) for a single ticker, returning the charts and info entries it
appends: a raised fetch raises into the except handler (error div only); an
empty frame hits continue (nothing at all); a missing required column raises
a KeyError into the handler; otherwise the chart is appended, then the info
fetch runs - if it raises, the already-appended chart stays and the error
div replaces the info card. -/
def runBody (candle : Bool) (interval : Interval) (env : TickerEnv) (t : String) :
    List String × List InfoEntry :=
  match env.fetchRes with
  | Except.error e => ([], [InfoEntry.errorDiv t e])
  | Except.ok raw =>
    match normalizeFrameE interval raw with
    | Except.error e => ([], [InfoEntry.errorDiv t e])
    | Except.ok df =>
      if df.dates.isEmpty then ([], [])
      else if colsPresent df (requiredCols candle) then
        match env.infoRes with
        | Except.error e => ([t], [InfoEntry.errorDiv t e])
        | Except.ok _ => ([t], [InfoEntry.card t])
      else ([], [InfoEntry.errorDiv t "KeyError"])

/-- The per-ticker loop of update_dashboard (app.py lines 596-780): fold over
the requested tickers in order, appending each iteration's chart and info
entries to the two accumulators. -/
def update_dashboard (candle : Bool) (interval : Interval) (env : String → TickerEnv)
    (tickers : List String) : List String × List InfoEntry :=
  tickers.foldl (fun acc t =>
    let r := runBody candle interval (env t) t
    (acc.1 ++ r.1, acc.2 ++ r.2)) ([], [])

/-- Concatenated per-ticker outputs, the recursion the fold computes. -/
def dashOutputs (candle : Bool) (interval : Interval) (env : String → TickerEnv) :
    List String → List String × List InfoEntry
  | [] => ([], [])
  | t :: ts =>
    let r := runBody candle interval (env t) t
    let d := dashOutputs candle interval env ts
    (r.1 ++ d.1, r.2 ++ d.2)

/-- The fold of update_dashboard equals the concatenation of per-ticker
outputs after any accumulator. -/
theorem update_dashboard_foldl (candle : Bool) (interval : Interval)
    (env : String → TickerEnv) (acc : List String × List InfoEntry) (ts : List String) :
    ts.foldl (fun acc t =>
      let r := runBody candle interval (env t) t
      (acc.1 ++ r.1, acc.2 ++ r.2)) acc =
    (acc.1 ++ (dashOutputs candle interval env ts).1,
     acc.2 ++ (dashOutputs candle interval env ts).2) := by
  induction ts generalizing acc with
  | nil => simp [dashOutputs]
  | cons t ts ih => simp [dashOutputs, ih, List.append_assoc]

/-- update_dashboard computes exactly the concatenated per-ticker outputs. -/
theorem update_dashboard_eq (candle : Bool) (interval : Interval)
    (env : String → TickerEnv) (ts : List String) :
    update_dashboard candle interval env ts = dashOutputs candle interval env ts := by
  rw [update_dashboard, update_dashboard_foldl]
  simp

/-- dashOutputs distributes over list append. -/
theorem dashOutputs_append (candle : Bool) (interval : Interval)
    (env : String → TickerEnv) (l1 l2 : List String) :
    dashOutputs candle interval env (l1 ++ l2) =
      ((dashOutputs candle interval env l1).1 ++ (dashOutputs candle interval env l2).1,
       (dashOutputs candle interval env l1).2 ++ (dashOutputs candle interval env l2).2) := by
  induction l1 with
  | nil => simp [dashOutputs]
  | cons t ts ih => simp [dashOutputs, ih]

/-- Normalization succeeds on every non-empty raw table whose index label is
Date or Datetime, whatever data columns it carries. -/
theorem normalizeFrameE_ok (interval : Interval) (r : RawFrame)
    (hne : r.dates.isEmpty = false)
    (hlabel : r.indexLabel = "Date" ∨ r.indexLabel = "Datetime") :
    ∃ z, normalizeFrameE interval r =
      Except.ok ⟨"Date", r.dates, z, flattenCols r.columns⟩ := by
  unfold normalizeFrameE
  rcases hlabel with h | h <;> rw [h] <;> simp only [hne] <;>
    by_cases hi : interval = Interval.m1
  · subst hi
    by_cases ht : r.tz = TZ.naive <;>
      simp [ht, tzLocalizeUTC, tzConvertEastern]
  · refine ⟨r.tz, ?_⟩
    simp [hi]
  · subst hi
    by_cases ht : r.tz = TZ.naive <;>
      simp [ht, tzLocalizeUTC, tzConvertEastern]
  · refine ⟨r.tz, ?_⟩
    simp [hi]

/-- Environments whose fetch returns a non-empty, well-labelled table with
all required columns and whose info fetch succeeds. -/
def goodEnvB (candle : Bool) (e : TickerEnv) : Bool :=
  (match e.fetchRes with
   | Except.ok r =>
     (!r.dates.isEmpty) &&
       (r.indexLabel = "Date" || r.indexLabel = "Datetime") &&
       (requiredCols candle).all (fun c => (findCol (flattenCols r.columns) c).isSome)
   | Except.error _ => false) &&
  (match e.infoRes with
   | Except.ok _ => true
   | Except.error _ => false)

/-- A good environment makes the loop body append one chart and one card. -/
theorem runBody_good (candle : Bool) (interval : Interval) (e : TickerEnv) (t : String)
    (h : goodEnvB candle e = true) :
    runBody candle interval e t = ([t], [InfoEntry.card t]) := by
  unfold goodEnvB at h
  cases hf : e.fetchRes with
  | error e' => rw [hf] at h; simp at h
  | ok raw =>
    rw [hf] at h
    cases hi : e.infoRes with
    | error e' => rw [hi] at h; simp at h
    | ok u =>
      rw [hi] at h
      simp only [Bool.and_true, Bool.and_eq_true, Bool.not_eq_true',
        Bool.or_eq_true, decide_eq_true_eq] at h
      obtain ⟨⟨hne, hlabel⟩, hcols⟩ := h
      obtain ⟨z, hz⟩ := normalizeFrameE_ok interval raw hne hlabel
      simp only [runBody, hf, hz, hne, hi]
      have hcp : colsPresent ⟨"Date", raw.dates, z, flattenCols raw.columns⟩
          (requiredCols candle) = true := hcols
      simp [hcp]

/-- A raised fetch yields only that symbol's error div. -/
theorem runBody_fetch_error (candle : Bool) (interval : Interval) (e : TickerEnv)
    (t msg : String) (h : e.fetchRes = Except.error msg) :
    runBody candle interval e t = ([], [InfoEntry.errorDiv t msg]) := by
  simp [runBody, h]

/-- An empty fetched table hits continue: nothing is appended at all. -/
theorem runBody_empty (candle : Bool) (interval : Interval) (e : TickerEnv)
    (t : String) (r : RawFrame) (hf : e.fetchRes = Except.ok r) (hr : r.dates = []) :
    runBody candle interval e t = ([], []) := by
  have hz : normalizeFrameE interval r =
      Except.ok ⟨r.indexLabel, r.dates, r.tz, flattenCols r.columns⟩ := by
    simp [normalizeFrameE, hr]
  simp [runBody, hf, hz, hr]

/-- Good environments across a whole list produce one chart and one card per
symbol, in order. -/
theorem dashOutputs_good (candle : Bool) (interval : Interval)
    (env : String → TickerEnv) (l : List String)
    (h : ∀ t ∈ l, goodEnvB candle (env t) = true) :
    dashOutputs candle interval env l = (l, l.map InfoEntry.card) := by
  induction l with
  | nil => rfl
  | cons t ts ih =>
    simp [dashOutputs, runBody_good candle interval (env t) t (h t (by simp)),
      ih (fun x hx => h x (by simp [hx]))]

/-- C1: a fetch failure for one symbol of a batch is captured as that
symbol's error entry and never aborts the others: with every other symbol
good, the batch yields the other symbols' charts and cards in their original
request order, plus exactly one error-only entry at the failed position. -/
theorem c1_one_failure_isolated (candle : Bool) (interval : Interval)
    (env : String → TickerEnv) (l1 l2 : List String) (bad msg : String)
    (h1 : ∀ t ∈ l1, goodEnvB candle (env t) = true)
    (h2 : ∀ t ∈ l2, goodEnvB candle (env t) = true)
    (hb : (env bad).fetchRes = Except.error msg) :
    update_dashboard candle interval env (l1 ++ bad :: l2) =
      (l1 ++ l2,
       l1.map InfoEntry.card ++ InfoEntry.errorDiv bad msg :: l2.map InfoEntry.card) := by
  rw [update_dashboard_eq, dashOutputs_append]
  rw [dashOutputs_good candle interval env l1 h1]
  have hmid : dashOutputs candle interval env (bad :: l2) =
      ([] ++ (dashOutputs candle interval env l2).1,
       [InfoEntry.errorDiv bad msg] ++ (dashOutputs candle interval env l2).2) := by
    simp [dashOutputs, runBody_fetch_error candle interval (env bad) bad msg hb]
  rw [hmid, dashOutputs_good candle interval env l2 h2]
  simp

/-- C10: a symbol whose fetch returns an empty table produces no output at
all - no chart, no info card, no error entry - and the batch result equals
that of the same request without the symbol. -/
theorem c10_empty_fetch_skipped (candle : Bool) (interval : Interval)
    (env : String → TickerEnv) (l1 l2 : List String) (bad : String) (r : RawFrame)
    (hb : (env bad).fetchRes = Except.ok r) (hr : r.dates = []) :
    runBody candle interval (env bad) bad = ([], []) ∧
    update_dashboard candle interval env (l1 ++ bad :: l2) =
      update_dashboard candle interval env (l1 ++ l2) := by
  have hskip := runBody_empty candle interval (env bad) bad r hb hr
  refine ⟨hskip, ?_⟩
  rw [update_dashboard_eq, update_dashboard_eq, dashOutputs_append, dashOutputs_append]
  have hmid : dashOutputs candle interval env (bad :: l2) =
      dashOutputs candle interval env l2 := by
    simp [dashOutputs, hskip]
  rw [hmid]

/-- C7 counterexample: a non-empty raw table lacking every mandatory OHLCV
column except Open. Normalization returns it successfully - there is no
DataShapeError (no such check, nor such an exception class, exists in the
code); the missing Close column is only detected downstream. -/
theorem c7_counterexample :
    findCol (flattenCols (⟨"Date", [0], TZ.naive,
      [(["Open"], [1])]⟩ : RawFrame).columns) "Close" = none ∧
    normalizeFrameE Interval.d1 ⟨"Date", [0], TZ.naive, [(["Open"], [1])]⟩ =
      Except.ok ⟨"Date", [0], TZ.naive, [("Open", [1])]⟩ :=
  ⟨rfl, rfl⟩

/-- C7 amended: the normalization step of fetch_stock_data performs no
mandatory-column validation and never fails because of absent OHLCV columns;
it succeeds on every table with a recognizable date label. A missing Close
column surfaces only downstream in update_dashboard, where the column access
raises a KeyError captured as that symbol's error entry. -/
theorem c7_amended (interval : Interval) (r : RawFrame)
    (hlabel : r.indexLabel = "Date" ∨ r.indexLabel = "Datetime") :
    (∃ df, normalizeFrameE interval r = Except.ok df) ∧
    (∀ env : String → TickerEnv, ∀ t, (env t).fetchRes = Except.ok r →
      r.dates ≠ [] → findCol (flattenCols r.columns) "Close" = none →
      runBody false interval (env t) t = ([], [InfoEntry.errorDiv t "KeyError"])) := by
  constructor
  · by_cases hne : r.dates.isEmpty
    · exact ⟨⟨r.indexLabel, r.dates, r.tz, flattenCols r.columns⟩,
        by simp [normalizeFrameE, hne]⟩
    · obtain ⟨z, hz⟩ := normalizeFrameE_ok interval r (by simpa using hne) hlabel
      exact ⟨_, hz⟩
  · intro env t hf hne hclose
    have hne' : r.dates.isEmpty = false := by
      cases hd : r.dates with
      | nil => exact absurd hd hne
      | cons a l => simp [hd]
    obtain ⟨z, hz⟩ := normalizeFrameE_ok interval r hne' hlabel
    have hcp : colsPresent ⟨"Date", r.dates, z, flattenCols r.columns⟩
        (requiredCols false) = false := by
      simp [colsPresent, requiredCols, hclose]
    simp [runBody, hf, hz, hne', hcp]

/-- C8: at 1-minute (intraday) granularity a non-empty table with naive
timestamps has them localized as UTC and then converted to US/Eastern - the
final zone is Eastern and the underlying instants are unchanged - while at
daily granularity no timezone conversion is performed and the timestamps and
zone are returned untouched. -/
theorem c8_timezone (r : RawFrame) (hne : r.dates ≠ [])
    (hlabel : r.indexLabel = "Date" ∨ r.indexLabel = "Datetime")
    (hnaive : r.tz = TZ.naive) :
    normalizeFrameE Interval.m1 r =
      Except.ok ⟨"Date", (tzConvertEastern (tzLocalizeUTC (r.dates, r.tz))).1,
        (tzConvertEastern (tzLocalizeUTC (r.dates, r.tz))).2, flattenCols r.columns⟩ ∧
    (tzConvertEastern (tzLocalizeUTC (r.dates, r.tz))).2 = TZ.eastern ∧
    (tzConvertEastern (tzLocalizeUTC (r.dates, r.tz))).1 = r.dates ∧
    normalizeFrameE Interval.d1 r =
      Except.ok ⟨"Date", r.dates, r.tz, flattenCols r.columns⟩ := by
  have hne' : r.dates.isEmpty = false := by
    cases hd : r.dates with
    | nil => exact absurd hd hne
    | cons a l => simp [hd]
  refine ⟨?_, rfl, rfl, ?_⟩
  · unfold normalizeFrameE
    rcases hlabel with h | h <;> rw [h] <;>
      simp [hne', hnaive, tzLocalizeUTC, tzConvertEastern]
  · unfold normalizeFrameE
    rcases hlabel with h | h <;> rw [h] <;> simp [hne']

/-- A non-empty one-bar raw table carrying all OHLCV columns. -/
def goodRawEx : RawFrame :=
  ⟨"Date", [0], TZ.naive,
    [(["Open"], [1]), (["High"], [2]), (["Low"], [1]), (["Close"], [2]),
     (["Volume"], [3])]⟩

/-- An empty raw table. -/
def emptyRawEx : RawFrame := ⟨"Date", [], TZ.naive, []⟩

/-- A non-empty raw table whose only data column is Open. -/
def c7rawEx : RawFrame := ⟨"Date", [0], TZ.naive, [(["Open"], [1])]⟩

/-- Environment for the C1 witness: the TSLA fetch raises, all others are
good. -/
def envEx : String → TickerEnv := fun t =>
  if t = "TSLA" then ⟨Except.error "provider error", Except.ok ()⟩
  else ⟨Except.ok goodRawEx, Except.ok ()⟩

/-- Witness for C1: a batch of five symbols where only the TSLA fetch raises
yields the other four charts and cards in request order plus one error
entry. -/
theorem c1_one_failure_isolated_witness :
    update_dashboard true Interval.m1 envEx ["SPY", "AAPL", "TSLA", "GOOGL", "NVDA"] =
      (["SPY", "AAPL", "GOOGL", "NVDA"],
       [InfoEntry.card "SPY", InfoEntry.card "AAPL",
        InfoEntry.errorDiv "TSLA" "provider error",
        InfoEntry.card "GOOGL", InfoEntry.card "NVDA"]) := by
  have h := c1_one_failure_isolated true Interval.m1 envEx ["SPY", "AAPL"]
    ["GOOGL", "NVDA"] "TSLA" "provider error" (by decide) (by decide) rfl
  simpa using h

/-- Environment for the C10 witness: the EMT fetch returns an empty table,
all others are good. -/
def envEmpty : String → TickerEnv := fun t =>
  if t = "EMT" then ⟨Except.ok emptyRawEx, Except.ok ()⟩
  else ⟨Except.ok goodRawEx, Except.ok ()⟩

/-- Witness for C10 on a three-symbol batch whose middle fetch is empty. -/
theorem c10_empty_fetch_skipped_witness :
    runBody true Interval.m1 (envEmpty "EMT") "EMT" = ([], []) ∧
    update_dashboard true Interval.m1 envEmpty (["SPY"] ++ "EMT" :: ["AAPL"]) =
      update_dashboard true Interval.m1 envEmpty (["SPY"] ++ ["AAPL"]) :=
  c10_empty_fetch_skipped true Interval.m1 envEmpty ["SPY"] ["AAPL"] "EMT"
    emptyRawEx rfl rfl

/-- Environment for the C7 witness: every fetch returns the Close-less
table. -/
def envC7 : String → TickerEnv := fun _ => ⟨Except.ok c7rawEx, Except.ok ()⟩

/-- Witness for C7 amended on the Close-less table. -/
theorem c7_amended_witness :
    (∃ df, normalizeFrameE Interval.d1 c7rawEx = Except.ok df) ∧
    runBody false Interval.d1 (envC7 "XXX") "XXX" =
      ([], [InfoEntry.errorDiv "XXX" "KeyError"]) :=
  ⟨(c7_amended Interval.d1 c7rawEx (Or.inl rfl)).1,
   (c7_amended Interval.d1 c7rawEx (Or.inl rfl)).2 envC7 "XXX" rfl (by decide) rfl⟩

/-- Witness for C8 on a naive non-empty table. -/
theorem c8_timezone_witness :
    normalizeFrameE Interval.m1 goodRawEx =
      Except.ok ⟨"Date",
        (tzConvertEastern (tzLocalizeUTC (goodRawEx.dates, goodRawEx.tz))).1,
        (tzConvertEastern (tzLocalizeUTC (goodRawEx.dates, goodRawEx.tz))).2,
        flattenCols goodRawEx.columns⟩ ∧
    (tzConvertEastern (tzLocalizeUTC (goodRawEx.dates, goodRawEx.tz))).2 =
      TZ.eastern ∧
    (tzConvertEastern (tzLocalizeUTC (goodRawEx.dates, goodRawEx.tz))).1 =
      goodRawEx.dates ∧
    normalizeFrameE Interval.d1 goodRawEx =
      Except.ok ⟨"Date", goodRawEx.dates, goodRawEx.tz, flattenCols goodRawEx.columns⟩ :=
  c8_timezone goodRawEx (by decide) (Or.inl rfl) rfl

end TradingDesk
